import Mathlib

/-!
# Verification of the siibra example notebooks

This development embeds the three example notebooks of the repository
(`BigBrain.ipynb`, `Probabilistic_assignment.ipynb`, `Walkthrough.ipynb`)
together with the behaviour of the external `siibra` client library that the
specification describes.  The notebooks themselves contain only glue code;
where a claim depends on the external library (which is not part of the
repository), the library operation is modelled from the specification's own
words, and each such definition is marked `Modelled from the spec:` in its
doc comment.
-/

namespace Siibra

/-! ## Templates and the resolution refusal policy (`BigBrain.ipynb`) -/

/-- A brain template volume, as returned by the external library.  Only the
fields the notebooks observe are represented. -/
structure Template where
  space : String
  resolution : ℚ
  deriving DecidableEq

/-- Modelled from the spec: "Template and parcellation-map retrieval,
parameterized by target space and optional resolution, with a refusal policy
when a requested resolution exceeds a feasibility threshold unless explicitly
overridden."  The external library's `get_template` is not in `src/`; the
feasibility threshold is the finest feasible resolution of the chosen space
(a finer resolution is a smaller number of micrometers, so a requested
resolution exceeds feasibility when it is below the threshold).  Without the
override flag `force` the library raises a `ValueError`. -/
def get_template (space : String) (threshold : ℚ) (resolution : Option ℚ)
    (force : Bool) : Except String Template :=
  match resolution with
  | none => .ok ⟨space, threshold⟩
  | some res =>
      if res < threshold ∧ force = false then
        .error "resolution not feasible"
      else
        .ok ⟨space, res⟩

/-- A requested resolution exceeds the feasibility threshold when it is finer
(a smaller micrometer value) than the threshold. -/
def exceedsFeasibility (threshold res : ℚ) : Prop := res < threshold

instance (threshold res : ℚ) : Decidable (exceedsFeasibility threshold res) :=
  inferInstanceAs (Decidable (res < threshold))

/-- Outcome of running one notebook cell: either a printed message (execution
continues), a value, or an uncaught exception (execution aborts). -/
inductive CellResult where
  | printed (msg : String)
  | value (t : Template)
  | uncaught (e : String)
  deriving DecidableEq

/-- The `BigBrain.ipynb` try/except cell:
`try: siibra.spaces.BIG_BRAIN.get_template(resolution=20.)`
`except ValueError as e: print("This didn't work!",str(e))`. -/
def tryGetTemplateCell (threshold : ℚ) : CellResult :=
  match get_template "bigbrain" threshold (some 20) false with
  | .error e => .printed ("This didn't work! " ++ e)
  | .ok t => .value t

/-! ## Environment variables (`Walkthrough.ipynb`, setup cells) -/

/-- The process environment, a finite map from variable names to values. -/
abbrev Env := List (String × String)

/-- Store a value under a key, overwriting a previous binding. -/
def envSet (env : Env) (k v : String) : Env :=
  match env with
  | [] => [(k, v)]
  | (k', v') :: rest => if k' = k then (k, v) :: rest else (k', v') :: envSet rest k v

/-- Look a key up in the environment. -/
def envGet (env : Env) (k : String) : Option String :=
  match env with
  | [] => none
  | (k', v') :: rest => if k' = k then some v' else envGet rest k

/-- The `Walkthrough.ipynb` token cell: `environ['HBP_AUTH_TOKEN'] = token`.
The token entered by the user is stored verbatim; nothing is read. -/
def tokenCell (token : String) (env : Env) : Env :=
  envSet env "HBP_AUTH_TOKEN" token

/-- The `Walkthrough.ipynb` cache-directory cell.  Both of its lines are
commented out (`#!mkdir -p /tmp/siibracache` and
`#environ['SIIBRA_CACHEDIR'] = "/tmp/siibracache"`), so the cell performs no
operation on the environment. -/
def cachedirCell (env : Env) : Env := env

/-! ## Probabilistic coordinate-to-region assignment
(`Probabilistic_assignment.ipynb`) -/

/-- An MNI coordinate. -/
abbrev Point := ℚ × ℚ × ℚ

/-- A region name together with its assignment probability. -/
abbrev Assignment := String × ℚ

/-- Ranking relation on assignments: higher probability first. -/
def probGE (a b : Assignment) : Prop := b.2 ≤ a.2

instance : DecidableRel probGE :=
  fun a b => inferInstanceAs (Decidable (b.2 ≤ a.2))

instance : IsTotal Assignment probGE := ⟨fun a b => le_total b.2 a.2⟩

instance : IsTrans Assignment probGE := ⟨fun _ _ _ h h' => le_trans h' h⟩

/-- Modelled from the spec: "Probabilistic coordinate-to-region assignment
given a point and an uncertainty radius, returning a ranked list of
(region, probability) pairs."  The external library's `assign_regions` is not
in `src/`; the per-point probabilities produced by its probabilistic maps are
abstracted as `raw`, and the library ranks each point's list by descending
probability. -/
def assign_regions (raw : Point → ℚ → List Assignment) (points : List Point)
    (radius : ℚ) : List (List Assignment) :=
  points.map (fun pt => List.insertionSort probGE (raw pt radius))

/-- The raw probabilities (as percentages) of a concrete example query, used
as a witness. -/
def rawEx : Point → ℚ → List Assignment :=
  fun _ _ => [("Area hOc2", 10), ("Area hOc1", 70), ("Area hOc3v", 20)]

/-- The first sEEG contact point of the notebook, `(31.0, -89.6, -6.475)`. -/
def ptEx : Point := (31, -448/5, -259/40)

/-- The ranked example assignment list. -/
def sortedEx : List Assignment :=
  [("Area hOc1", 70), ("Area hOc3v", 20), ("Area hOc2", 10)]

/-! ## Region selection (`Walkthrough.ipynb`) -/

/-- A brain region of a parcellation, with the attributes the notebooks use:
its full name (which is also what the `regionnames` glossary entry denotes)
and the label index it carries in the parcellation map, when any. -/
structure RegionDef where
  name : String
  labelindex : Option Nat
  deriving DecidableEq

/-- ASCII lower-casing of a single character. -/
def lowerChar : Char → Char
  | 'A' => 'a' | 'B' => 'b' | 'C' => 'c' | 'D' => 'd' | 'E' => 'e' | 'F' => 'f'
  | 'G' => 'g' | 'H' => 'h' | 'I' => 'i' | 'J' => 'j' | 'K' => 'k' | 'L' => 'l'
  | 'M' => 'm' | 'N' => 'n' | 'O' => 'o' | 'P' => 'p' | 'Q' => 'q' | 'R' => 'r'
  | 'S' => 's' | 'T' => 't' | 'U' => 'u' | 'V' => 'v' | 'W' => 'w' | 'X' => 'x'
  | 'Y' => 'y' | 'Z' => 'z' | c => c

/-- `needle` is a leading block of `hay`. -/
def charsHasPre : List Char → List Char → Bool
  | [], _ => true
  | _ :: _, [] => false
  | n :: ns, h :: hs => n == h && charsHasPre ns hs

/-- `needle` occurs contiguously somewhere in `hay`. -/
def charsOccurs : List Char → List Char → Bool
  | needle, [] => charsHasPre needle []
  | needle, h :: hs => charsHasPre needle (h :: hs) || charsOccurs needle hs

/-- Split a character list into its space-separated words; `acc` is the
current word, reversed. -/
def splitWordsAux : List Char → List Char → List (List Char)
  | acc, [] => [acc.reverse]
  | acc, c :: cs =>
      if c = ' ' then acc.reverse :: splitWordsAux [] cs
      else splitWordsAux (c :: acc) cs

/-- Case-insensitive substring occurrence. -/
def occursIn (needle hay : String) : Bool :=
  charsOccurs (needle.toList.map lowerChar) (hay.toList.map lowerChar)

/-- Modelled from the spec: the fuzzy free-text match used by region search —
every whitespace-separated word of the query fragment must occur, case
insensitively, in the region name (so the query fragment `"v1 left"` matches
`"Area hOc1 (V1, 17, CalcS) left hemisphere"`). -/
def fuzzyMatches (query : String) (r : RegionDef) : Bool :=
  (splitWordsAux [] query.toList).all fun w =>
    occursIn (String.mk w) r.name

/-- The input forms `select_region` accepts: a string — either a free-text
fragment or a `regionnames` glossary entry, which denotes the region's full
name — or an integer label index of the parcellation map. -/
inductive RegionSpec where
  | byText (s : String)
  | byLabel (n : Nat)

/-- Modelled from the spec: "Atlas/parcellation/region selection and search
(by name, numeric label, or fuzzy text match)".  The external library's
`select_region` is not in `src/`.  A string resolves as an exact region name
when one matches (the glossary form), and through the fuzzy text match
otherwise; an integer resolves through the label indices of the parcellation
map. -/
def select_region (regions : List RegionDef) : RegionSpec → List RegionDef
  | .byText s =>
      match regions.filter (fun r => r.name == s) with
      | [] => regions.filter (fuzzyMatches s)
      | r :: rs => r :: rs
  | .byLabel n => regions.filter (fun r => r.labelindex == some n)

/-- A fragment of the Julich-Brain region list, used as a witness. -/
def julichRegions : List RegionDef :=
  [⟨"Area hOc1 (V1, 17, CalcS) left hemisphere", some 112⟩,
   ⟨"Area hOc1 (V1, 17, CalcS) right hemisphere", some 8⟩,
   ⟨"Area hOc3v (LingG) left hemisphere", some 10⟩]

/-! ## Feature retrieval filtered by the atlas selection
(`Walkthrough.ipynb`) -/

/-- How a feature modality is linked to the atlas selection.  From the
Walkthrough's own text: receptor densities and gene expressions match the
currently selected brain region, while a connectivity matrix "does not match
to the selected brain region in the atlas, but to the selected
parcellation". -/
inductive MatchMode where
  | byRegion
  | byParcellation
  deriving DecidableEq

/-- A data feature as the notebooks observe it: the name of the region it is
linked to and the parcellation it is defined for. -/
structure Feature where
  region : String
  parcellation : String
  deriving DecidableEq

/-- The atlas selection state: the chosen parcellation and, optionally, a
selected region (by name). -/
structure AtlasState where
  selectedParcellation : String
  selectedRegion : Option String
  deriving DecidableEq

/-- `atlas.select_region` as a state change: records the region selection. -/
def selectRegionState (st : AtlasState) (r : String) : AtlasState :=
  { st with selectedRegion := some r }

/-- `atlas.clear_selection`: removes the region selection. -/
def clear_selection (st : AtlasState) : AtlasState :=
  { st with selectedRegion := none }

/-- Modelled from the spec: "Feature retrieval by modality (e.g., receptor
density, gene expression, connectivity matrix/profile), filtered implicitly
by current region/parcellation selection."  The external library's feature
matching is not in `src/`.  Every feature must belong to the current
parcellation; a region-linked modality must in addition match the selected
region when one is selected ("If not particular selection is made,
`get_features` considers all brain regions of the current parcellation");
for a parcellation-linked modality the region selection plays no role. -/
def matchesSelection (st : AtlasState) (mode : MatchMode) (f : Feature) : Bool :=
  f.parcellation == st.selectedParcellation &&
    (match mode, st.selectedRegion with
     | .byParcellation, _ => true
     | .byRegion, none => true
     | .byRegion, some r => f.region == r)

/-- `atlas.get_features(modality)`: of the features `pool` available for the
given modality, those matching the current selection. -/
def get_features (st : AtlasState) (mode : MatchMode) (pool : List Feature) :
    List Feature :=
  pool.filter fun f => matchesSelection st mode f

/-- A connectivity-matrix feature of the Julich-Brain parcellation, used as a
counterexample input. -/
def connMatrixFeature : Feature := ⟨"whole brain", "julich 2.5"⟩

/-- The atlas state after `atlas.select_region("V1")` with the Julich-Brain
parcellation selected. -/
def v1State : AtlasState := ⟨"julich 2.5", some "V1"⟩

/-! ## Connectivity profiles and the notebook's plotting helper
(`Probabilistic_assignment.ipynb`) -/

/-- A decoded connectivity profile: a list of (strength, region) pairs, as
produced by `p.decode(atlas.selected_parcellation)`. -/
abbrev DecodedProfile := List (ℚ × String)

/-- A Python dict, written as insertion-ordered pairs: inserting an existing
key overwrites its value, a new key is appended. -/
def dictInsert (d : List (String × ℚ)) (k : String) (v : ℚ) :
    List (String × ℚ) :=
  match d with
  | [] => [(k, v)]
  | (k', v') :: rest =>
      if k' = k then (k, v) :: rest else (k', v') :: dictInsert rest k v

/-- Python dict lookup. -/
def dictFind (d : List (String × ℚ)) (k : String) : Option ℚ :=
  match d with
  | [] => none
  | (k', v') :: rest => if k' = k then some v' else dictFind rest k

/-- The dict comprehension `probs = {region: prob for prob,region in p}` of
`plot_connectivity_profiles`: the pairs of `p` are inserted in order, so a
later occurrence of a region overwrites an earlier one. -/
def probsDict (p : DecodedProfile) : List (String × ℚ) :=
  p.foldl (fun d sr => dictInsert d sr.2 sr.1) []

/-- The list comprehension
`y = [probs[r] if r in probs else 0 for r in target_regions]` of
`plot_connectivity_profiles`. -/
def yValues (p : DecodedProfile) (targets : List String) : List ℚ :=
  targets.map fun r =>
    match dictFind (probsDict p) r with
    | some v => v
    | none => 0

/-- `plot_connectivity_profiles(profiles, target_regions)`: for each profile
the y-series plotted over the target regions (the figure, ticks and labels
are presentation only). -/
def plot_connectivity_profiles (profiles : List DecodedProfile)
    (targets : List String) : List (List ℚ) :=
  profiles.map fun p => yValues p targets

/-- The strength at the last occurrence of a region in a profile, when the
region occurs at all. -/
def lastStrength : DecodedProfile → String → Option ℚ
  | [], _ => none
  | sr :: rest, r =>
      match lastStrength rest r with
      | some v => some v
      | none => if sr.2 == r then some sr.1 else none

/-! ## Read-only consumption of connectivity features -/

/-- A connectivity profile as returned by `get_features`: the column entries
pair a strength with a raw region name; `src_name` and `src_info` describe
the source dataset. -/
structure ConnProfile where
  entries : List (ℚ × String)
  src_name : String
  src_info : String
  deriving DecidableEq

/-- `p.decode(atlas.selected_parcellation)` converts the column names of the
profile to explicit brain region objects and returns the result as a new
list of (strength, region) pairs; the resolution of a raw column name to a
region of the parcellation is performed by the external library, abstracted
as `parc`. -/
def decode (parc : String → String) (p : ConnProfile) : DecodedProfile :=
  p.entries.map fun e => (e.1, parc e.2)

/-- A connectivity-matrix feature as returned by `get_features`. -/
structure ConnMatrix where
  matrix : List (List ℚ)
  src_name : String
  src_info : String
  deriving DecidableEq

/-- The variables of `Probabilistic_assignment.ipynb` touched by the decode
cell: the features returned by `get_features` and the decoded list. -/
structure ProfilesState where
  profiles : List ConnProfile
  decoded_profiles : List DecodedProfile
  deriving DecidableEq

/-- The decode cell:
`decoded_profiles = [p.decode(atlas.selected_parcellation) for p in profiles]`
binds a new variable and reads `profiles` only. -/
def decodeCell (parc : String → String) (st : ProfilesState) : ProfilesState :=
  { st with decoded_profiles := st.profiles.map (decode parc) }

/-! ## The connectivity-matrix plotting cell (`Walkthrough.ipynb`) -/

/-- What `f,axs = plt.subplots(1, n)` binds `axs` to, per the plotting
toolkit's documented behaviour with the default `squeeze=True`: with one
column a bare `Axes` object, with several an array of axes. -/
inductive AxesResult where
  | single
  | array (axs : List Nat)
  deriving DecidableEq

/-- `plt.subplots(1, n)`: the toolkit requires a positive number of columns;
with `n = 1` it returns a bare `Axes`, with `n ≥ 2` an array of `n` axes. -/
def subplots (n : Nat) : Except String AxesResult :=
  if n = 0 then
    .error "ValueError: Number of columns must be a positive integer"
  else if n = 1 then .ok .single
  else .ok (.array (List.range n))

/-- `axs[i]`: indexing a bare `Axes` object is a `TypeError`; indexing the
array is defined only in bounds. -/
def axsIndex : AxesResult → Nat → Except String Nat
  | .single, _ => .error "TypeError: Axes object is not subscriptable"
  | .array axs, i =>
      match axs[i]? with
      | some ax => .ok ax
      | none => .error "IndexError: index out of bounds"

/-- The loop `for i,feature in enumerate(features): axs[i].imshow(...);
axs[i].set_title(...)`: iterations run in order and the first failing axes
access aborts the cell; a successful iteration records a draw command on its
axes, titled by the feature's dataset name. -/
def drawCommands (axs : AxesResult) :
    List (Nat × ConnMatrix) → Except String (List (Nat × String))
  | [] => .ok []
  | p :: rest =>
      match axsIndex axs p.1 with
      | .error e => .error e
      | .ok ax =>
          match drawCommands axs rest with
          | .error e => .error e
          | .ok cmds => .ok ((ax, p.2.src_name) :: cmds)

/-- The Walkthrough's connectivity-matrix cell:
`features = atlas.get_features(siibra.modalities.ConnectivityMatrix)[:4]`,
`f,axs = plt.subplots(1,len(features))`, then the `enumerate(features)`
loop over `axs[i]`. -/
def connectivityCell (allFeatures : List ConnMatrix) :
    Except String (List (Nat × String)) :=
  let features := allFeatures.take 4
  match subplots features.length with
  | .error e => .error e
  | .ok axs => drawCommands axs features.enum

/-- The connectivity-matrix cell as a state step: the features variable is
unchanged and the draw commands (or the aborting exception) are the cell's
display output. -/
def plotMatrixCell (fs : List ConnMatrix) :
    List ConnMatrix × Except String (List (Nat × String)) :=
  (fs, connectivityCell fs)

/-- A concrete connectivity-matrix feature, used as a witness input. -/
def dsA : ConnMatrix := ⟨[[0, 1], [1, 0]], "DatasetA", "infoA"⟩

/-- A second concrete connectivity-matrix feature. -/
def dsB : ConnMatrix := ⟨[[0, 2], [2, 0]], "DatasetB", "infoB"⟩

/-! ## Cell-order structure of the notebooks

Each notebook is embedded as its sequence of library-relevant statements in
execution order.  Every statement carries the indices of the earlier
statements whose results or atlas-selection state it uses — its dataflow
dependencies, read off the source (variable definitions and uses, and the
selection state a fetch depends on). -/

/-- The kinds of statements the notebooks perform.  `importLib` is the
statement importing the siibra library itself; `importOther` imports a
third-party helper (nilearn's plotting module, matplotlib, numpy,
textwrap). -/
inductive OpKind where
  | importLib
  | importOther
  | configLogging
  | selectParc
  | selectRegion
  | clearSel
  | fetch
  | plot
  | defineData
  | defineFn
  deriving DecidableEq

/-- One library-relevant statement: its kind and its dependencies. -/
structure Op where
  kind : OpKind
  uses : List Nat
  deriving DecidableEq

/-- `BigBrain.ipynb`, statement by statement. -/
def bigBrainOps : List Op :=
  [⟨.importLib, []⟩,       -- 0: import siibra
   ⟨.importOther, []⟩,     -- 1: from nilearn import plotting,image
   ⟨.configLogging, [0]⟩,  -- 2: siibra.logger.setLevel('INFO')
   ⟨.fetch, [0]⟩,          -- 3: template = siibra.spaces.BIG_BRAIN.get_template()
   ⟨.fetch, [0]⟩,          -- 4: try: get_template(resolution=20.) except ValueError
   ⟨.selectParc, [0]⟩,     -- 5: atlas = ...; select_parcellation(BIGBRAIN_CORTICAL_LAYERS)
   ⟨.fetch, [5]⟩,          -- 6: layers = atlas.get_map(BIG_BRAIN, resolution=320)
   ⟨.defineFn, [3, 1]⟩,    -- 7: plot_roi lambda (plotting.view_img, bg_img=template)
   ⟨.plot, [7, 6]⟩,        -- 8: plot_roi(layers.as_image(), "Layer masks")
   ⟨.selectRegion, [5]⟩,   -- 9: atlas.select_region("3")
   ⟨.fetch, [9]⟩,          -- 10: layermask = atlas.build_mask(BIG_BRAIN)
   ⟨.plot, [7, 10]⟩,       -- 11: plot_roi(layermask, "Layer III")
   ⟨.selectParc, [0]⟩,     -- 12: atlas.select_parcellation(JULICH_..._2_5)
   ⟨.selectRegion, [12]⟩,  -- 13: atlas.select_region("hOc3v")
   ⟨.fetch, [13]⟩,         -- 14: regionmask = atlas.build_mask(BIG_BRAIN, 320)
   ⟨.plot, [7, 14]⟩]       -- 15: plot_roi(regionmask, "Area hOc3v")

/-- `Probabilistic_assignment.ipynb`, statement by statement.  Note the
third-party imports that execute in the middle of the notebook, after
selections: `from nilearn import plotting` in the first plotting cell and
`import matplotlib.pyplot as plt` in the plot-function cell. -/
def probabilisticOps : List Op :=
  [⟨.importLib, []⟩,       -- 0: import siibra
   ⟨.configLogging, [0]⟩,  -- 1: siibra.logger.setLevel('INFO')
   ⟨.defineData, []⟩,      -- 2: xyz_mni, radius_mm
   ⟨.selectParc, [0]⟩,     -- 3: atlas = ...; select_parcellation(JULICH_..._2_5)
   ⟨.fetch, [3, 2]⟩,       -- 4: assignments = atlas.assign_regions(..., xyz_mni, radius_mm)
   ⟨.importOther, []⟩,     -- 5: from nilearn import plotting
   ⟨.fetch, [4]⟩,          -- 6: region.get_regional_map(...) for the top three assignments
   ⟨.plot, [6, 4, 2, 5]⟩,  -- 7: plotting.plot_stat_map(..., cut_coords=xyz_mni[0])
   ⟨.selectRegion, [4, 3]⟩, -- 8: closest_region,_ = assignments[0][0]; select_region
   ⟨.fetch, [8]⟩,          -- 9: profiles = atlas.get_features(ConnectivityProfile)
   ⟨.configLogging, [0]⟩,  -- 10: siibra.logger.setLevel("ERROR")
   ⟨.defineData, [9, 3]⟩,  -- 11: decoded_profiles = [p.decode(...) for p in profiles]
   ⟨.configLogging, [0]⟩,  -- 12: siibra.logger.setLevel("INFO")
   ⟨.defineData, [11]⟩,    -- 13: target_regions = [region for strength,region in p[:20]]
   ⟨.importOther, []⟩,     -- 14: import matplotlib.pyplot as plt
   ⟨.defineFn, [14]⟩,      -- 15: def plot_connectivity_profiles(...) (uses plt)
   ⟨.plot, [15, 11, 13]⟩,  -- 16: fig = plot_connectivity_profiles(...)
   ⟨.plot, [16, 9, 8, 14]⟩] -- 17: fig.legend(...); fig.gca().set_title(...); plt.show()

/-- `Walkthrough.ipynb`, statement by statement.  Note the third-party
helper imported near the end of the notebook, after many selections:
`from textwrap import wrap` in the connectivity-matrix cell. -/
def walkthroughOps : List Op :=
  [⟨.importOther, []⟩,     -- 0: from nilearn import plotting,image; numpy; matplotlib
   ⟨.defineData, []⟩,      -- 1: token cell: environ['HBP_AUTH_TOKEN'] = token
   ⟨.importLib, []⟩,       -- 2: import siibra
   ⟨.configLogging, [2]⟩,  -- 3: siibra.logger.setLevel("INFO")
   ⟨.defineData, [2]⟩,     -- 4: atlas = siibra.atlases.MULTILEVEL_HUMAN_ATLAS
   ⟨.selectParc, [4]⟩,     -- 5: atlas.select_parcellation(JULICH_..._2_5)
   ⟨.selectParc, [4]⟩,     -- 6: atlas.select_parcellation(JULICH_..._2_5) (maps cell)
   ⟨.fetch, [4]⟩,          -- 7: icbm_mri = atlas.get_template(MNI152...)
   ⟨.fetch, [6]⟩,          -- 8: icbm_map = atlas.get_map(MNI152...)
   ⟨.plot, [8, 0]⟩,        -- 9: plot_stat_map(m) for m in icbm_map
   ⟨.fetch, [4]⟩,          -- 10: bigbrain_template = atlas.get_template(BIG_BRAIN, 640)
   ⟨.fetch, [6]⟩,          -- 11: bigbrain_map = atlas.get_map(BIG_BRAIN, 640)
   ⟨.plot, [11, 10, 0]⟩,   -- 12: plot_stat_map(m, bg_img=bigbrain_template)
   ⟨.selectParc, [4]⟩,     -- 13: atlas.select_parcellation(DESIKAN_KILLIANY_2006)
   ⟨.fetch, [13]⟩,         -- 14: dk_map = atlas.get_map(MNI152...)
   ⟨.plot, [14, 0]⟩,       -- 15: plot_stat_map(m, cmap=...) for m in dk_map
   ⟨.selectParc, [4]⟩,     -- 16: atlas.select_parcellation(JULICH_..._2_5)
   ⟨.selectRegion, [16]⟩,  -- 17: atlas.select_region("v1")
   ⟨.selectRegion, [16]⟩,  -- 18: atlas.select_region("v1 left")
   ⟨.selectRegion, [16]⟩,  -- 19: atlas.select_region(atlas.regionnames.AREA_HOC1_...)
   ⟨.fetch, [4]⟩,          -- 20: matches = atlas.find_regions('ventral', ...)
   ⟨.selectRegion, [16]⟩,  -- 21: atlas.select_region(112)
   ⟨.selectRegion, [16]⟩,  -- 22: atlas.select_region('fp2 right')
   ⟨.fetch, [22]⟩,         -- 23: pmap = atlas.selected_region.get_regional_map(...)
   ⟨.plot, [23, 0]⟩,       -- 24: plotting.plot_stat_map(pmap)
   ⟨.fetch, [22]⟩,         -- 25: props = atlas.selected_region.spatialprops(...)
   ⟨.clearSel, [4]⟩,       -- 26: atlas.clear_selection()
   ⟨.fetch, [26, 16]⟩,     -- 27: features = atlas.get_features(ReceptorDistribution)
   ⟨.selectRegion, [16]⟩,  -- 28: atlas.select_region("V1")
   ⟨.fetch, [28]⟩,         -- 29: features = atlas.get_features(ReceptorDistribution)
   ⟨.plot, [29]⟩,          -- 30: fig = r.plot(r.region) for r in features
   ⟨.selectRegion, [16]⟩,  -- 31: atlas.select_region("V1")
   ⟨.fetch, [31]⟩,         -- 32: features = atlas.get_features(GeneExpression, ...)
   ⟨.fetch, [31]⟩,         -- 33: mask = atlas.build_mask(MNI152...)
   ⟨.plot, [33, 32, 0]⟩,   -- 34: plot_roi(mask); display.add_markers(all_coords)
   ⟨.fetch, [16]⟩,         -- 35: features = atlas.get_features(ConnectivityMatrix)[:4]
   ⟨.importOther, []⟩,     -- 36: from textwrap import wrap
   ⟨.defineFn, [36]⟩,      -- 37: titleformat lambda (uses wrap)
   ⟨.plot, [35, 37, 0]⟩]   -- 38: f,axs = plt.subplots(...); imshow; set_title

/-- Every statement's dependencies precede it in execution order. -/
def depsPrecede (ops : List Op) : Bool :=
  ops.enum.all fun p => p.2.uses.all fun j => decide (j < p.1)

/-- A selection statement. -/
def isSelect (k : OpKind) : Bool :=
  k == .selectParc || k == .selectRegion

/-- A siibra library import or logging-level configuration statement. -/
def isSetup (k : OpKind) : Bool :=
  k == .importLib || k == .configLogging

/-- An import statement of either kind. -/
def isAnyImport (k : OpKind) : Bool :=
  k == .importLib || k == .importOther

/-- Statements of the given kind have all their dependencies earlier. -/
def kindUsesPrecede (ops : List Op) (k : OpKind) : Bool :=
  ops.enum.all fun p =>
    !(p.2.kind == k) || p.2.uses.all fun j => decide (j < p.1)

/-- One reading of the claim's step (a): every library import and every
logging-level configuration occurs before every selection. -/
def allSetupBeforeAnySelect (ops : List Op) : Bool :=
  ops.enum.all fun p =>
    !(isSetup p.2.kind) ||
      ops.enum.all fun q => !(isSelect q.2.kind) || decide (p.1 < q.1)

/-- The other reading of the claim's step (a): every import statement of any
kind occurs before every selection. -/
def allImportsBeforeAnySelect (ops : List Op) : Bool :=
  ops.enum.all fun p =>
    !(isAnyImport p.2.kind) ||
      ops.enum.all fun q => !(isSelect q.2.kind) || decide (p.1 < q.1)

/-- The amended reading of step (a): the import of the siibra library
itself, and the first logging-level configuration, precede every
selection. -/
def librarySetupBeforeSelect (ops : List Op) : Bool :=
  (ops.enum.all fun p =>
    !(p.2.kind == .importLib) ||
      ops.enum.all fun q => !(isSelect q.2.kind) || decide (p.1 < q.1)) &&
  (match ops.findIdx? (fun op => op.kind == .configLogging),
         ops.findIdx? (fun op => isSelect op.kind) with
   | some ci, some si => decide (ci < si)
   | _, _ => true)

end Siibra

open Siibra

/-! ## Helper lemmas -/

theorem envGet_envSet_self (env : Env) (k v : String) :
    envGet (envSet env k v) k = some v := by
  induction env with
  | nil => simp [envSet, envGet]
  | cons hd tl ih =>
      by_cases h : hd.1 = k
      · simp [envSet, envGet, h]
      · simp [envSet, envGet, h, ih]

theorem envGet_envSet_other (env : Env) (k k' v : String) (hk : k' ≠ k) :
    envGet (envSet env k v) k' = envGet env k' := by
  have hk' : k ≠ k' := Ne.symm hk
  induction env with
  | nil => simp [envSet, envGet, hk']
  | cons hd tl ih =>
      by_cases h : hd.1 = k
      · have h' : hd.1 ≠ k' := by rw [h]; exact hk'
        simp [envSet, envGet, h, h', hk']
      · simp [envSet, envGet, h, ih]

/-! ## The claims -/

/-- C1: requesting a template at a resolution that exceeds the feasibility
threshold without the override flag yields a `ValueError`; the notebook's
try/except catches it and prints it, so execution continues rather than
aborting; the same request with `force=True` succeeds. -/
theorem C1_get_template_refusal (space : String) (threshold res : ℚ)
    (h : exceedsFeasibility threshold res) :
    get_template space threshold (some res) false =
        .error "resolution not feasible" ∧
    get_template space threshold (some res) true = .ok ⟨space, res⟩ ∧
    (exceedsFeasibility threshold 20 →
      tryGetTemplateCell threshold =
        .printed "This didn't work! resolution not feasible") := by
  refine ⟨?_, ?_, ?_⟩
  · simp [get_template, exceedsFeasibility] at *
    simp [h]
  · simp [get_template]
  · intro h20
    simp [tryGetTemplateCell, get_template, exceedsFeasibility] at *
    simp [h20]

/-- Witness for C1 at the notebook's concrete request: BigBrain with
feasibility threshold 320 µm, requested resolution 20 µm. -/
theorem C1_get_template_refusal_witness :
    exceedsFeasibility 320 20 ∧
    get_template "bigbrain" 320 (some 20) false =
        .error "resolution not feasible" ∧
    get_template "bigbrain" 320 (some 20) true = .ok ⟨"bigbrain", 20⟩ ∧
    tryGetTemplateCell 320 =
        .printed "This didn't work! resolution not feasible" := by
  have h : exceedsFeasibility 320 20 := by decide
  have c := C1_get_template_refusal "bigbrain" 320 20 h
  exact ⟨h, c.1, c.2.1, c.2.2 h⟩

/-- C5: the notebook stores the authentication token verbatim under
`HBP_AUTH_TOKEN` without reading or transforming it, leaves every other
environment variable unchanged, and the `SIIBRA_CACHEDIR` cell (fully
commented out) performs no operation; the variables are consumed only by the
external library. -/
theorem C5_env_vars_not_processed (token k : String) (env : Env)
    (hk : k ≠ "HBP_AUTH_TOKEN") :
    envGet (tokenCell token env) "HBP_AUTH_TOKEN" = some token ∧
    envGet (tokenCell token env) k = envGet env k ∧
    cachedirCell env = env :=
  ⟨envGet_envSet_self env "HBP_AUTH_TOKEN" token,
   envGet_envSet_other env "HBP_AUTH_TOKEN" k token hk, rfl⟩

/-- Witness for C5 at a concrete token and environment. -/
theorem C5_env_vars_not_processed_witness :
    ("PATH" ≠ "HBP_AUTH_TOKEN") ∧
    envGet (tokenCell "tok123" [("PATH", "/usr/bin")]) "HBP_AUTH_TOKEN" =
        some "tok123" ∧
    envGet (tokenCell "tok123" [("PATH", "/usr/bin")]) "PATH" =
        envGet [("PATH", "/usr/bin")] "PATH" ∧
    cachedirCell [("PATH", "/usr/bin")] = [("PATH", "/usr/bin")] := by
  have hk : ("PATH" : String) ≠ "HBP_AUTH_TOKEN" := by decide
  exact ⟨hk, C5_env_vars_not_processed "tok123" "PATH" [("PATH", "/usr/bin")] hk⟩

/-- C2: `assign_regions` returns one result list per input point; each
result is ranked by probability in descending order, and the first pair of a
point's list has probability at least that of every pair in the list — it is
the most probable region. -/
theorem C2_assign_regions_ranked (raw : Point → ℚ → List Assignment)
    (points : List Point) (radius : ℚ) :
    (assign_regions raw points radius).length = points.length ∧
    ∀ res ∈ assign_regions raw points radius,
      List.Sorted probGE res ∧
      ∀ hd, res.head? = some hd → ∀ pr ∈ res, pr.2 ≤ hd.2 := by
  constructor
  · simp [assign_regions]
  · intro res hres
    simp only [assign_regions, List.mem_map] at hres
    obtain ⟨pt, _, rfl⟩ := hres
    have hsorted := List.sorted_insertionSort probGE (raw pt radius)
    generalize hs : List.insertionSort probGE (raw pt radius) = s
    rw [hs] at hsorted
    refine ⟨hsorted, ?_⟩
    intro hd hhd pr hpr
    cases s with
    | nil => simp at hhd
    | cons a tl =>
        simp only [List.head?] at hhd
        cases hhd
        rcases List.mem_cons.mp hpr with h | h
        · rw [h]
        · exact List.rel_of_sorted_cons hsorted pr h

/-- Witness for C2 at the notebook's first contact point and a concrete raw
probability list. -/
theorem C2_assign_regions_ranked_witness :
    (assign_regions rawEx [ptEx] 5).length = 1 ∧
    List.Sorted probGE sortedEx ∧ ((10 : ℚ) ≤ 70) := by
  have h := C2_assign_regions_ranked rawEx [ptEx] 5
  have hmem : sortedEx ∈ assign_regions rawEx [ptEx] 5 := by decide
  have h2 := h.2 sortedEx hmem
  refine ⟨h.1, h2.1, ?_⟩
  exact h2.2 ("Area hOc1", 70) (by decide) ("Area hOc2", 10) (by decide)

/-- C7: `select_region` resolves each of the three accepted input forms into
a region selection: a free-text fragment through the fuzzy match, an exact
`regionnames` glossary entry (the region's full name), and an integer label
index of the parcellation map. -/
theorem C7_select_region_three_forms (regions : List RegionDef) :
    (∀ q, (∃ r ∈ regions, fuzzyMatches q r = true) →
        select_region regions (.byText q) ≠ []) ∧
    (∀ r ∈ regions, r ∈ select_region regions (.byText r.name)) ∧
    (∀ n, (∃ r ∈ regions, r.labelindex = some n) →
        select_region regions (.byLabel n) ≠ [] ∧
        ∀ r ∈ select_region regions (.byLabel n), r.labelindex = some n) := by
  refine ⟨?_, ?_, ?_⟩
  · intro q hq
    obtain ⟨r, hr, hf⟩ := hq
    cases hfil : regions.filter (fun r => r.name == q) with
    | nil =>
        simp only [select_region, hfil]
        exact List.ne_nil_of_mem (List.mem_filter.mpr ⟨hr, hf⟩)
    | cons a tl =>
        simp only [select_region, hfil]
        exact List.cons_ne_nil a tl
  · intro r hr
    have hmem : r ∈ regions.filter (fun r' => r'.name == r.name) :=
      List.mem_filter.mpr ⟨hr, by simp⟩
    cases hfil : regions.filter (fun r' => r'.name == r.name) with
    | nil => rw [hfil] at hmem; exact absurd hmem (List.not_mem_nil r)
    | cons a tl =>
        simp only [select_region, hfil]
        rw [hfil] at hmem
        exact hmem
  · intro n hn
    obtain ⟨r, hr, hl⟩ := hn
    constructor
    · exact List.ne_nil_of_mem
        (List.mem_filter.mpr ⟨hr, by simp [hl]⟩)
    · intro r' hr'
      have := List.of_mem_filter hr'
      simpa using this

/-- Witness for C7 on a fragment of the Julich-Brain region list: the fuzzy
fragment "v1 left", the glossary name, and the label index 112 all resolve. -/
theorem C7_select_region_three_forms_witness :
    select_region julichRegions (.byText "v1 left") ≠ [] ∧
    (⟨"Area hOc1 (V1, 17, CalcS) left hemisphere", some 112⟩ : RegionDef) ∈
      select_region julichRegions
        (.byText "Area hOc1 (V1, 17, CalcS) left hemisphere") ∧
    select_region julichRegions (.byLabel 112) ≠ [] := by
  have h := C7_select_region_three_forms julichRegions
  refine ⟨h.1 "v1 left" ⟨⟨"Area hOc1 (V1, 17, CalcS) left hemisphere", some 112⟩,
    by decide, by decide⟩, ?_, ?_⟩
  · have := h.2.1 ⟨"Area hOc1 (V1, 17, CalcS) left hemisphere", some 112⟩ (by decide)
    exact this
  · exact (h.2.2 112 ⟨⟨"Area hOc1 (V1, 17, CalcS) left hemisphere", some 112⟩,
      by decide, by decide⟩).1

/-- C3 counterexample: for the connectivity-matrix modality — which the
Walkthrough itself says matches the selected parcellation, not the selected
brain region — `get_features` after `select_region("V1")` still returns a
feature whose region is not V1, so the returned list is not the sublist of
features matching the selected region. -/
theorem C3_counterexample :
    get_features v1State .byParcellation [connMatrixFeature] =
        [connMatrixFeature] ∧
    List.filter (fun f => f.region == "V1") [connMatrixFeature] = [] := by
  decide

/-- C3 (amended): with no region selected, `get_features` returns the
features of the current parcellation for every modality; after
`select_region`, for a region-linked modality the result is exactly the
sublist of those features that match the selected region, while for a
parcellation-linked modality (connectivity matrix) the region selection
leaves the result unchanged. -/
theorem C3_get_features_filtered (st : AtlasState) (pool : List Feature)
    (r : String) :
    (∀ mode, get_features (clear_selection st) mode pool =
        pool.filter (fun f => f.parcellation == st.selectedParcellation)) ∧
    (get_features (selectRegionState st r) .byRegion pool =
        (pool.filter (fun f => f.parcellation == st.selectedParcellation)).filter
          (fun f => f.region == r)) ∧
    List.Sublist (get_features (selectRegionState st r) .byRegion pool)
        (get_features (clear_selection st) .byRegion pool) ∧
    (get_features (selectRegionState st r) .byParcellation pool =
        get_features (clear_selection st) .byParcellation pool) := by
  have hclear : ∀ mode, get_features (clear_selection st) mode pool =
      pool.filter (fun f => f.parcellation == st.selectedParcellation) := by
    intro mode
    cases mode <;>
      simp [get_features, matchesSelection, clear_selection]
  have hsel : get_features (selectRegionState st r) .byRegion pool =
      (pool.filter (fun f => f.parcellation == st.selectedParcellation)).filter
        (fun f => f.region == r) := by
    simp only [get_features, matchesSelection, selectRegionState,
      List.filter_filter]
    exact List.filter_congr fun f _ => Bool.and_comm _ _
  refine ⟨hclear, hsel, ?_, ?_⟩
  · rw [hsel, hclear]
    exact List.filter_sublist _
  · simp [get_features, matchesSelection, selectRegionState, clear_selection]

theorem dictFind_dictInsert (d : List (String × ℚ)) (k v r) :
    dictFind (dictInsert d k v) r = if k = r then some v else dictFind d r := by
  induction d with
  | nil => simp [dictInsert, dictFind]
  | cons hd tl ih =>
      by_cases h : hd.1 = k
      · by_cases hkr : k = r
        · simp [dictInsert, dictFind, h, hkr]
        · have hd1r : hd.1 ≠ r := by rw [h]; exact hkr
          simp [dictInsert, dictFind, h, hkr, hd1r]
      · by_cases hd1r : hd.1 = r
        · have hkr : k ≠ r := fun hkr => h (hd1r.trans hkr.symm)
          have hrk : r ≠ k := Ne.symm hkr
          simp [dictInsert, dictFind, h, hd1r, hkr, hrk, ih]
        · simp [dictInsert, dictFind, h, hd1r, ih]

theorem dictFind_foldlInsert (p : DecodedProfile) (r : String) :
    ∀ d, dictFind (p.foldl (fun d sr => dictInsert d sr.2 sr.1) d) r =
      match lastStrength p r with
      | some v => some v
      | none => dictFind d r := by
  induction p with
  | nil => intro d; simp [lastStrength]
  | cons sr rest ih =>
      intro d
      simp only [List.foldl_cons]
      rw [ih]
      cases hrest : lastStrength rest r with
      | some v => simp [lastStrength, hrest]
      | none =>
          simp only [lastStrength, hrest]
          rw [dictFind_dictInsert]
          by_cases h : sr.2 = r
          · simp [h]
          · simp [h]

theorem dictFind_probsDict (p : DecodedProfile) (r : String) :
    dictFind (probsDict p) r = lastStrength p r := by
  have h := dictFind_foldlInsert p r []
  cases hl : lastStrength p r with
  | some v => rw [hl] at h; exact h
  | none => rw [hl] at h; simpa [dictFind] using h

theorem lastStrength_mem (p : DecodedProfile) (r : String) (v : ℚ)
    (h : lastStrength p r = some v) : (v, r) ∈ p := by
  induction p with
  | nil => simp [lastStrength] at h
  | cons sr rest ih =>
      obtain ⟨s1, s2⟩ := sr
      simp only [lastStrength] at h
      cases hrest : lastStrength rest r with
      | some w =>
          rw [hrest] at h
          cases h
          exact List.mem_cons_of_mem _ (ih hrest)
      | none =>
          rw [hrest] at h
          by_cases hsr : s2 = r
          · simp [hsr] at h
            rw [← h, ← hsr]
            exact List.mem_cons_self _ _
          · simp [hsr] at h

theorem yValues_eq (p : DecodedProfile) (targets : List String) :
    yValues p targets = targets.map fun r => (lastStrength p r).getD 0 := by
  simp only [yValues, dictFind_probsDict]
  congr 1
  funext r
  cases lastStrength p r <;> rfl

/-- C9: for every list of decoded profiles and target regions,
`plot_connectivity_profiles` plots for each profile the series over the
target regions whose value at a region is its strength at that region's
last occurrence in the profile, and 0 when the region does not occur; the
lookup is total — one plotted value per target region, never a missing-key
error. -/
theorem C9_plot_profiles_lookup (profiles : List DecodedProfile)
    (targets : List String) :
    plot_connectivity_profiles profiles targets =
      profiles.map (fun p => targets.map fun r => (lastStrength p r).getD 0) ∧
    ∀ ys ∈ plot_connectivity_profiles profiles targets,
      ys.length = targets.length := by
  constructor
  · simp only [plot_connectivity_profiles, yValues_eq]
  · intro ys hys
    simp only [plot_connectivity_profiles, List.mem_map] at hys
    obtain ⟨p, _, rfl⟩ := hys
    simp [yValues]

/-- Witness for C9: region "Area A" occurs twice in the profile (strengths 3
then 7) and its plotted value is the last occurrence's 7; the absent
"Area C" is plotted as 0. -/
theorem C9_plot_profiles_lookup_witness :
    plot_connectivity_profiles [[(3, "Area A"), (5, "Area B"), (7, "Area A")]]
        [ "Area A", "Area C" ] = [[7, 0]] ∧
    ([7, 0] : List ℚ).length = ([ "Area A", "Area C" ] : List String).length := by
  have h := C9_plot_profiles_lookup
      [[(3, "Area A"), (5, "Area B"), (7, "Area A")]] [ "Area A", "Area C" ]
  refine ⟨?_, h.2 [7, 0] (by decide)⟩
  rw [h.1]
  decide

/-- C4 counterexample: `plot_connectivity_profiles` does not merely forward
library-returned values to the plotting toolkit — for a target region absent
from the profile the notebook fabricates the plotted value 0, which appears
nowhere in the library-returned profile, an original data transformation in
this repository's code. -/
theorem C4_counterexample :
    yValues [(5, "Area hOc1")] [ "Area PostCG" ] = [0] ∧
    (0 : ℚ) ∉ ([(5, "Area hOc1")] : DecodedProfile).map Prod.fst := by
  decide

/-- C4 (amended): the scientific computation is delegated to the external
library, but the notebook-defined plotting helper does transform data for
display: every value it plots is either a strength taken from a
library-returned profile or the fabricated constant 0 for a missing
region. -/
theorem C4_plot_values_delegated (profiles : List DecodedProfile)
    (targets : List String) :
    ∀ ys ∈ plot_connectivity_profiles profiles targets, ∀ v ∈ ys,
      v ∈ profiles.flatten.map Prod.fst ∨ v = 0 := by
  intro ys hys v hv
  simp only [plot_connectivity_profiles, List.mem_map] at hys
  obtain ⟨p, hp, rfl⟩ := hys
  rw [yValues_eq] at hv
  simp only [List.mem_map] at hv
  obtain ⟨r, _, rfl⟩ := hv
  cases h : lastStrength p r with
  | none => right; simp [h]
  | some w =>
      left
      simp only [h, Option.getD_some]
      exact List.mem_map.mpr
        ⟨(w, r), List.mem_flatten.mpr ⟨p, hp, lastStrength_mem p r w h⟩, rfl⟩

/-- Witness for C4 at a concrete profile and target list. -/
theorem C4_plot_values_delegated_witness :
    (5 : ℚ) ∈ ([[((5 : ℚ), "Area hOc1")]] :
        List DecodedProfile).flatten.map Prod.fst ∨ (5 : ℚ) = 0 :=
  C4_plot_values_delegated [[(5, "Area hOc1")]] [ "Area hOc1" ] [5]
    (by decide) 5 (by decide)

/-- C8: the notebooks consume connectivity features read-only — the decode
cell binds a new variable and leaves the profiles it reads unchanged, with
`decode` producing a new value from the profile's entries, and the
connectivity-matrix plotting cell leaves the features, their matrices and
their dataset names unchanged while producing its draw commands. -/
theorem C8_features_read_only (parc : String → String) (st : ProfilesState)
    (fs : List ConnMatrix) :
    (decodeCell parc st).profiles = st.profiles ∧
    (decodeCell parc st).decoded_profiles = st.profiles.map (decode parc) ∧
    (plotMatrixCell fs).1 = fs ∧
    (plotMatrixCell fs).1.map ConnMatrix.matrix = fs.map ConnMatrix.matrix ∧
    (plotMatrixCell fs).1.map ConnMatrix.src_name = fs.map ConnMatrix.src_name :=
  ⟨rfl, rfl, rfl, rfl, rfl⟩

theorem drawCommands_range_ok (l : List ConnMatrix) (n : Nat) :
    ∀ k, k + l.length ≤ n →
      drawCommands (.array (List.range n)) (l.enumFrom k) =
        .ok ((l.enumFrom k).map fun p => (p.1, p.2.src_name)) := by
  induction l with
  | nil => intro k _; simp [drawCommands, List.enumFrom]
  | cons a t ih =>
      intro k hk
      have hkn : k < n := by simp only [List.length_cons] at hk; omega
      have hget : (List.range n)[k]? = some k := List.getElem?_range hkn
      simp only [List.enumFrom, drawCommands, axsIndex, hget]
      rw [ih (k + 1) (by simp only [List.length_cons] at hk; omega)]
      rfl

theorem drawCommands_ok_length (axs : AxesResult) (l : List (Nat × ConnMatrix)) :
    ∀ cmds, drawCommands axs l = .ok cmds → cmds.length = l.length := by
  induction l with
  | nil =>
      intro cmds h
      simp only [drawCommands] at h
      cases h
      rfl
  | cons p rest ih =>
      intro cmds h
      simp only [drawCommands] at h
      cases hi : axsIndex axs p.1 with
      | error e => rw [hi] at h; simp at h
      | ok ax =>
          rw [hi] at h
          cases hr : drawCommands axs rest with
          | error e => rw [hr] at h; simp at h
          | ok cs =>
              rw [hr] at h
              cases h
              simp [ih cs hr]

/-- C10 counterexample: with an empty features list the cell does fail, but
at `plt.subplots(1,0)` — the toolkit rejects zero columns — and not at the
axes indexing, which is never reached. -/
theorem C10_counterexample :
    connectivityCell [] =
        .error "ValueError: Number of columns must be a positive integer" ∧
    connectivityCell [] ≠
        .error "TypeError: Axes object is not subscriptable" := by
  refine ⟨rfl, ?_⟩
  intro h
  exact absurd (Except.error.inj h) (by decide)

/-- C10 (amended): the connectivity-matrix cell plots at most the first four
features; for a features list of length at least two every axes access
`axs[i]` is in bounds and the cell succeeds with one draw command per
plotted matrix; for a list of length one the cell fails at the axes
indexing (the bare `Axes` object is not subscriptable); for an empty list it
fails earlier, at `plt.subplots`, which rejects zero columns. -/
theorem C10_connectivity_cell_bounds (fs : List ConnMatrix) :
    (2 ≤ fs.length →
        connectivityCell fs =
          .ok ((fs.take 4).enum.map fun p => (p.1, p.2.src_name))) ∧
    (fs.length = 1 →
        connectivityCell fs =
          .error "TypeError: Axes object is not subscriptable") ∧
    (fs.length = 0 →
        connectivityCell fs =
          .error "ValueError: Number of columns must be a positive integer") ∧
    (∀ cmds, connectivityCell fs = .ok cmds → cmds.length ≤ 4) := by
  refine ⟨?_, ?_, ?_, ?_⟩
  · intro h2
    have hlen : (fs.take 4).length = min 4 fs.length := List.length_take _ _
    have hne0 : ¬((fs.take 4).length = 0) := by rw [hlen]; omega
    have hne1 : ¬((fs.take 4).length = 1) := by rw [hlen]; omega
    simp only [connectivityCell, subplots, if_neg hne0, if_neg hne1]
    exact drawCommands_range_ok (fs.take 4) _ 0 (by omega)
  · intro h1
    match fs, h1 with
    | [a], _ => rfl
  · intro h0
    have : fs = [] := List.eq_nil_of_length_eq_zero h0
    subst this
    rfl
  · intro cmds h
    simp only [connectivityCell] at h
    cases hs : subplots (fs.take 4).length with
    | error e => rw [hs] at h; simp at h
    | ok axs =>
        rw [hs] at h
        have hl := drawCommands_ok_length axs ((fs.take 4).enum) cmds h
        rw [hl, List.enum_length, List.length_take]
        omega

/-- Witness for C10: with two features the cell succeeds, drawing each
matrix on its own axes; with one feature it fails at the axes indexing. -/
theorem C10_connectivity_cell_bounds_witness :
    connectivityCell [dsA, dsB] = .ok [(0, "DatasetA"), (1, "DatasetB")] ∧
    connectivityCell [dsA] =
        .error "TypeError: Axes object is not subscriptable" ∧
    ([(0, "DatasetA"), (1, "DatasetB")] : List (Nat × String)).length ≤ 4 := by
  have h2 := C10_connectivity_cell_bounds [dsA, dsB]
  have h1 := C10_connectivity_cell_bounds [dsA]
  have e : connectivityCell [dsA, dsB] = .ok [(0, "DatasetA"), (1, "DatasetB")] :=
    (h2.1 (by decide)).trans (congrArg Except.ok (by decide))
  exact ⟨e, h1.2.1 rfl, h2.2.2.2 _ e⟩

/-- C6 counterexample: the four-step ordering fails on both readings of its
step (a).  In `Probabilistic_assignment.ipynb` a logging-level configuration
(`siibra.logger.setLevel("ERROR")` of the decode cell, statement 10)
executes after the parcellation selection (statement 3), and an import
(`from nilearn import plotting`, statement 5) also executes after it; in
`Walkthrough.ipynb` the import `from textwrap import wrap` (statement 36)
executes after `atlas.select_region("v1")` (statement 17).  So neither every
logging-level configuration nor every import precedes every
atlas/parcellation/region selection. -/
theorem C6_counterexample :
    allSetupBeforeAnySelect probabilisticOps = false ∧
    (probabilisticOps.get? 10).map Op.kind = some .configLogging ∧
    (probabilisticOps.get? 3).map Op.kind = some .selectParc ∧
    allImportsBeforeAnySelect probabilisticOps = false ∧
    (probabilisticOps.get? 5).map Op.kind = some .importOther ∧
    allImportsBeforeAnySelect walkthroughOps = false ∧
    (walkthroughOps.get? 36).map Op.kind = some .importOther ∧
    (walkthroughOps.get? 17).map Op.kind = some .selectRegion := by
  decide

/-- C6 (amended): in every notebook the import of the siibra library itself
and the initial logging-level configuration precede any
atlas/parcellation/region selection; every statement's dataflow dependencies
precede it — in particular every selection precedes the data-fetch that
depends on it and every plotting call follows the data-fetches whose results
it displays.  Only `BigBrain.ipynb` satisfies the stronger orderings in
which every logging configuration and every import (including third-party
helper imports) precede every selection: `Probabilistic_assignment.ipynb`
reconfigures the logging level and imports plotting helpers after
selections, and `Walkthrough.ipynb` imports textwrap after selections. -/
theorem C6_cell_order :
    (depsPrecede bigBrainOps ∧ depsPrecede probabilisticOps ∧
      depsPrecede walkthroughOps) ∧
    (kindUsesPrecede bigBrainOps .fetch ∧
      kindUsesPrecede probabilisticOps .fetch ∧
      kindUsesPrecede walkthroughOps .fetch) ∧
    (kindUsesPrecede bigBrainOps .plot ∧
      kindUsesPrecede probabilisticOps .plot ∧
      kindUsesPrecede walkthroughOps .plot) ∧
    (librarySetupBeforeSelect bigBrainOps ∧
      librarySetupBeforeSelect probabilisticOps ∧
      librarySetupBeforeSelect walkthroughOps) ∧
    (allSetupBeforeAnySelect bigBrainOps ∧
      allImportsBeforeAnySelect bigBrainOps) := by
  decide
